import Mathlib

/-!
Shallow embedding of `fpsyncrc.py`, the configuration file of fpsync: it is
executed in a namespace where the defaults `host`, `start_dir` and `excludes`
are already bound, and it builds `TO_UPDATE`, an ordered list of sync-task
dicts with keys `dir1`, `dir2`, `to_update`, `exclude_from`.  The injected
defaults and the platform probe are free parameters of every definition; the
dict literals, the list comprehension and the `+` concatenation of the source
are translated line by line.
-/

namespace Fpsyncrc

/-- POSIX `os.path.join` restricted to two segments, as imported at line 15
(`from os.path import join as pjoin`): an absolute second segment replaces the
first; otherwise the two are concatenated, inserting `/` only when the first
segment is non-empty and does not already end in `/`.  The three tests
(`b.startswith('/')`, `not path`, `path.endswith('/')`) are phrased on the
character list: first character is `/`, list empty, last character is `/`. -/
def pjoin (a b : String) : String :=
  if b.data.head? = some '/' then b
  else if a.data = [] ∨ a.data.getLast? = some '/' then a ++ b
  else a ++ "/" ++ b

/-- `MUST_EXIST = '~/.ssh'`, line 20. -/
def MUST_EXIST : String := "~/.ssh"

/-- `server_home = f'{host}:{start_dir}'`, line 22, as a function of the two
injected defaults it reads. -/
def server_home (host start_dir : String) : String :=
  host ++ ":" ++ start_dir

/-- One sync task: a dict with the four keys `dir1`, `dir2`, `to_update`,
`exclude_from` described by the block comment at lines 25–50. -/
structure SyncTaskSpec where
  dir1 : String
  dir2 : String
  to_update : List String
  exclude_from : String
deriving Repr, DecidableEq

/-- The `base` dict of lines 55–59.  It carries only the three default fields
and no `to_update` key, so it gets its own record type. -/
structure BaseSpec where
  dir1 : String
  dir2 : String
  exclude_from : String
deriving Repr, DecidableEq

/-- `base = {'dir1': '~', 'dir2': server_home, 'exclude_from': excludes}`,
lines 55–59. -/
def base (host start_dir excludes : String) : BaseSpec :=
  { dir1 := "~"
    dir2 := server_home host start_dir
    exclude_from := excludes }

/-- An override fragment as spread over `base`: the three base keys are
optional (a `some` overrides, a `none` leaves the base's value), and the
fragment always supplies a `to_update` list. -/
structure Fragment where
  dir1? : Option String
  dir2? : Option String
  exclude_from? : Option String
  to_update : List String
deriving Repr, DecidableEq

/-- Python dict spread `{**base, **fragment}` over the four fixed keys: a key
present in the fragment wins, a key absent from the fragment is taken verbatim
from `base` (lines 61–62 and line 84). -/
def mergeFragment (b : BaseSpec) (f : Fragment) : SyncTaskSpec :=
  { dir1 := f.dir1?.getD b.dir1
    dir2 := f.dir2?.getD b.dir2
    to_update := f.to_update
    exclude_from := f.exclude_from?.getD b.exclude_from }

/-- The `to_update` value of the `home` dict: the triple-quoted string of
lines 63–73 after `.split()` — 37 names. -/
def homeItems : List String :=
  [".bash_profile", ".bashrc", ".bashrc_virtualenv",
   ".bash_utils", ".bash_virtualenv_utils", ".bash_git_completion",
   ".emacs", ".emacs.conf.d", ".fonts",
   ".gitconfig", ".gitignore", ".gitk", ".hgrc", ".hgignore",
   ".ipython", ".inputrc", ".ispell_english", ".ispell_spanish",
   ".jed", ".less", ".lesskey", ".lyx",
   ".mrconfig", ".nose.cfg", ".noserc",
   ".profile", ".pycheckrc", ".pypirc", ".pythonstartup.py", ".Rprofile",
   ".sig", ".starcluster-completion.sh", ".ssh", ".tmux.conf",
   "Desktop", "Documents", "Pictures"]

/-- The `home` override fragment of lines 61–74: `{**base, 'to_update': …}`;
no other key is overridden. -/
def homeFragment : Fragment :=
  { dir1? := none, dir2? := none, exclude_from? := none, to_update := homeItems }

/-- One run of the platform-conditional augmentation step, lines 76–78:
`if p.platform().startswith('Linux'): home['to_update'].append('R')`.
`list.append` adds `'R'` at the end unconditionally whenever the platform
reports Linux; the probe result is the `isLinux` parameter. -/
def augmentLinux (isLinux : Bool) (items : List String) : List String :=
  if isLinux then items ++ ["R"] else items

/-- The `home` task as it stands after lines 61–78: the merged fragment with
the augmentation step applied once. -/
def home (host start_dir excludes : String) (isLinux : Bool) : SyncTaskSpec :=
  let t := mergeFragment (base host start_dir excludes) homeFragment
  { t with to_update := augmentLinux isLinux t.to_update }

/-- `dirs`, lines 80–82: the triple-quoted string after `.split()` — 13
names. -/
def dirs : List String :=
  ["dev", "ipython", "jupyter", "misc", "prof", "ref", "research", "scratch",
   "talks", "teach", "texmf", "usr", "www"]

/-- Line 84: `other_homedirs = [{**base, 'to_update': [d]} for d in dirs]`. -/
def other_homedirs (host start_dir excludes : String) : List SyncTaskSpec :=
  dirs.map fun d =>
    mergeFragment (base host start_dir excludes)
      { dir1? := none, dir2? := none, exclude_from? := none, to_update := [d] }

/-- The `config` dict, lines 87–92.  NOTE: the source writes its last two
entries as `'to_update' = ['mc', 'flake8']` and `'exclude_from' = excludes`,
with `=` where a Python dict display requires `:` — a `SyntaxError` (modelled
by `configDictSeps` below).  This definition gives the mapping those lines
evidently intend. -/
def config (host start_dir excludes : String) : SyncTaskSpec :=
  { dir1 := pjoin "~" ".config"
    dir2 := pjoin (server_home host start_dir) ".config"
    to_update := ["mc", "flake8"]
    exclude_from := excludes }

/-- `lib_path = 'Library'`, line 95. -/
def lib_path : String := "Library"

/-- The `library` dict, lines 96–101. -/
def library (host start_dir excludes : String) : SyncTaskSpec :=
  { dir1 := pjoin "~" lib_path
    dir2 := pjoin (server_home host start_dir) lib_path
    to_update := ["Jupyter"]
    exclude_from := excludes }

/-- Lines 104–108: `TO_UPDATE = [config, library, home] + other_homedirs`. -/
def TO_UPDATE (host start_dir excludes : String) (isLinux : Bool) :
    List SyncTaskSpec :=
  [config host start_dir excludes,
   library host start_dir excludes,
   home host start_dir excludes isLinux] ++
    other_homedirs host start_dir excludes

/-- The key–value separator token written in one entry of a Python dict
display. -/
inductive DictSep where
  | colon : DictSep
  | eq : DictSep
deriving Repr, DecidableEq

/-- The separators as literally written in the four entries of the `config`
dict display, lines 88–91: `:`, `:`, `=`, `=`. -/
def configDictSeps : List DictSep :=
  [DictSep.colon, DictSep.colon, DictSep.eq, DictSep.eq]

/-- Python's grammar accepts a dict display only when every entry separates
its key from its value with `:`; an `=` there is a `SyntaxError`, raised when
the file is compiled for `exec`, before any statement runs. -/
def dictEntriesWellFormed (seps : List DictSep) : Bool :=
  seps.all fun s => s == DictSep.colon

/-- The error raised when the `MUST_EXIST` sentinel path is missing. -/
structure PreconditionError where
  path : String
deriving Repr, DecidableEq

/-- Modelled from the spec: the check of the `MUST_EXIST` sentinel lives in
the calling script (`laptop-update.py`), which is not part of this source
file; per the spec, if the precondition path is absent resolution fails before
producing any tasks, returning zero tasks and one `PreconditionError`, and
otherwise the resolved `TO_UPDATE` list is returned.  `fsExists` is the
filesystem probe. -/
def resolve (fsExists : String → Bool) (host start_dir excludes : String)
    (isLinux : Bool) : List SyncTaskSpec × List PreconditionError :=
  if fsExists MUST_EXIST then (TO_UPDATE host start_dir excludes isLinux, [])
  else ([], [{ path := MUST_EXIST }])

/-- Whether a path string ends in the POSIX separator `/`. -/
def endsSep (s : String) : Bool :=
  decide (s.data.getLast? = some '/')

/-- The item invariant of the block comment at lines 40–49: a `to_update`
entry holds no `/` at all (it is a single leaf directly under both roots) and
in particular does not end in a trailing separator. -/
def itemOk (i : String) : Bool :=
  !(decide ('/' ∈ i.data)) && !(endsSep i)

/-- C1: the claim says exec-ing the configuration source in a namespace
binding `host`, `start_dir` and `excludes` completes without error and binds
`TO_UPDATE`.  It does not: the `config` dict display at lines 88–91 uses `=`
in place of `:` in its last two entries, so compiling the file for `exec`
raises a `SyntaxError` before any statement runs and `TO_UPDATE` is never
bound.  The claim matches the evident intent (every other dict in the file
uses `:`), so the code, not the claim, is at fault. -/
theorem c1_config_dict_not_wellformed :
    dictEntriesWellFormed configDictSeps = false := rfl

/-- C2: the claim says appending the Linux item `'R'` and then running the
same augmentation step again leaves exactly one occurrence of `'R'`.  False:
`list.append` is not idempotent, so the second run adds a second `'R'` to the
`home` items. -/
theorem c2_counterexample :
    ¬ (augmentLinux true (augmentLinux true homeItems)).count "R" = 1 := by
  decide

/-- C2 (amended): one run of the augmentation on the home items leaves exactly
one occurrence of `'R'`; running the same step again leaves exactly two — the
append is not idempotent and duplicates the item on the repeated call. -/
theorem c2_append_not_idempotent :
    (augmentLinux true homeItems).count "R" = 1 ∧
    (augmentLinux true (augmentLinux true homeItems)).count "R" = 2 := by
  decide

/-- C3: for every override fragment with a non-empty `to_update` list, each of
the three base fields (`dir1`, `dir2`, `exclude_from`) that the fragment does
not explicitly override appears verbatim in the merged `SyncTaskSpec` — the
dict spread `{**base, …}` keeps every base key the fragment omits. -/
theorem c3_field_inheritance (b : BaseSpec) (f : Fragment)
    (_hne : f.to_update ≠ []) :
    (f.dir1? = none → (mergeFragment b f).dir1 = b.dir1) ∧
    (f.dir2? = none → (mergeFragment b f).dir2 = b.dir2) ∧
    (f.exclude_from? = none → (mergeFragment b f).exclude_from = b.exclude_from) := by
  refine ⟨fun h1 => ?_, fun h2 => ?_, fun h3 => ?_⟩
  · simp [mergeFragment, h1]
  · simp [mergeFragment, h2]
  · simp [mergeFragment, h3]

/-- C3, satisfiability: the hypotheses of `c3_field_inheritance` hold at the
concrete `home` fragment merged over the concrete base. -/
theorem c3_field_inheritance_witness :
    (homeFragment.dir1? = none →
      (mergeFragment (base "host" "." "~/.excludes") homeFragment).dir1 =
        (base "host" "." "~/.excludes").dir1) ∧
    (homeFragment.dir2? = none →
      (mergeFragment (base "host" "." "~/.excludes") homeFragment).dir2 =
        (base "host" "." "~/.excludes").dir2) ∧
    (homeFragment.exclude_from? = none →
      (mergeFragment (base "host" "." "~/.excludes") homeFragment).exclude_from =
        (base "host" "." "~/.excludes").exclude_from) :=
  c3_field_inheritance (base "host" "." "~/.excludes") homeFragment (by decide)

/-- C4: the bulk expansion at line 84 maps the 13-name `dirs` list, in order,
to 13 `SyncTaskSpec`s, each whose `to_update` is the singleton of the
corresponding name and whose other fields are the base's. -/
theorem c4_bulk_expansion (host start_dir excludes : String) :
    other_homedirs host start_dir excludes =
      dirs.map (fun d =>
        { dir1 := (base host start_dir excludes).dir1
          dir2 := (base host start_dir excludes).dir2
          to_update := [d]
          exclude_from := (base host start_dir excludes).exclude_from }) ∧
    dirs.length = 13 ∧
    (other_homedirs host start_dir excludes).length = 13 := by
  refine ⟨rfl, rfl, rfl⟩

/-- Every `to_update` list in the resolved configuration passes `itemOk`; the
lists are concrete, so on each platform value this evaluates. -/
theorem all_items_ok (host start_dir excludes : String) (isLinux : Bool) :
    ((TO_UPDATE host start_dir excludes isLinux).all fun t =>
      t.to_update.all itemOk) = true := by
  cases isLinux <;> rfl

/-- C5: every entry of every task's `to_update` in the resolved `TO_UPDATE`
list contains no path-separator character `/` (so it names a single leaf
directly under both roots) and does not end with a trailing separator. -/
theorem c5_item_invariant (host start_dir excludes : String) (isLinux : Bool) :
    ∀ t ∈ TO_UPDATE host start_dir excludes isLinux, ∀ i ∈ t.to_update,
      ('/' ∉ i.data) ∧ i.data.getLast? ≠ some '/' := by
  intro t ht i hi
  have h := all_items_ok host start_dir excludes isLinux
  rw [List.all_eq_true] at h
  have h2 := h t ht
  rw [List.all_eq_true] at h2
  have h3 := h2 i hi
  unfold itemOk endsSep at h3
  rw [Bool.and_eq_true, Bool.not_eq_true', Bool.not_eq_true',
    decide_eq_false_iff_not, decide_eq_false_iff_not] at h3
  exact h3

/-- C5, satisfiability: the hypotheses of `c5_item_invariant` hold at the
concrete `config` task and its first item. -/
theorem c5_item_invariant_witness :
    config "host" "." "~/.excludes" ∈ TO_UPDATE "host" "." "~/.excludes" true ∧
    "mc" ∈ (config "host" "." "~/.excludes").to_update ∧
    ('/' ∉ "mc".data) ∧ "mc".data.getLast? ≠ some '/' := by
  have hmem : config "host" "." "~/.excludes" ∈
      TO_UPDATE "host" "." "~/.excludes" true :=
    List.mem_append_left _ (List.mem_cons_self _ _)
  refine ⟨hmem, by decide, ?_⟩
  exact c5_item_invariant "host" "." "~/.excludes" true
    (config "host" "." "~/.excludes") hmem "mc" (by decide)

/-- C6: when the `MUST_EXIST` sentinel path `~/.ssh` is absent from the
filesystem, resolution produces zero tasks and exactly one
`PreconditionError`, regardless of the injected defaults and the platform. -/
theorem c6_precondition (fsExists : String → Bool)
    (host start_dir excludes : String) (isLinux : Bool)
    (hmiss : fsExists MUST_EXIST = false) :
    (resolve fsExists host start_dir excludes isLinux).1 = [] ∧
    (resolve fsExists host start_dir excludes isLinux).2 =
      [{ path := MUST_EXIST }] := by
  unfold resolve
  rw [hmiss]
  exact ⟨rfl, rfl⟩

/-- C6, satisfiability: the hypothesis of `c6_precondition` holds for the
probe that reports every path absent. -/
theorem c6_precondition_witness :
    (resolve (fun _ => false) "host" "." "~/.excludes" true).1 = [] ∧
    (resolve (fun _ => false) "host" "." "~/.excludes" true).2 =
      [{ path := MUST_EXIST }] :=
  c6_precondition (fun _ => false) "host" "." "~/.excludes" true rfl

/-- C7: the resolver keeps configuration order: `TO_UPDATE` is exactly
`[config, library, home]` followed by the bulk-expanded home-directory tasks;
and merging one base with several override fragments (the spec's example:
items `["a","b"]` then `["c"]` over base `~` / `host:.` / `~/.excludes`)
yields one task per fragment in input order, both inheriting the base
fields. -/
theorem c7_order (host start_dir excludes : String) (isLinux : Bool) :
    TO_UPDATE host start_dir excludes isLinux =
      [config host start_dir excludes,
       library host start_dir excludes,
       home host start_dir excludes isLinux] ++
        other_homedirs host start_dir excludes ∧
    [{ dir1? := none, dir2? := none, exclude_from? := none,
       to_update := ["a", "b"] },
     { dir1? := none, dir2? := none, exclude_from? := none,
       to_update := ["c"] }].map
        (mergeFragment { dir1 := "~", dir2 := "host:.",
                         exclude_from := "~/.excludes" }) =
      [{ dir1 := "~", dir2 := "host:.", exclude_from := "~/.excludes",
         to_update := ["a", "b"] },
       { dir1 := "~", dir2 := "host:.", exclude_from := "~/.excludes",
         to_update := ["c"] }] :=
  ⟨rfl, rfl⟩

/-- C8: the claim says the merger signals a `ConfigError` on an override
fragment with an empty `items` list.  False: the merger is the dict spread
`{**base, …}`, which has no error path at all — an empty fragment is merged
silently into a no-op task with empty `to_update`, as this evaluation
shows. -/
theorem c8_counterexample :
    mergeFragment (base "host" "." "~/.excludes")
        { dir1? := none, dir2? := none, exclude_from? := none,
          to_update := [] } =
      { dir1 := "~", dir2 := "host:.", exclude_from := "~/.excludes",
        to_update := [] } := rfl

/-- C8 (amended): the merger signals no error on an empty-items fragment — it
silently produces a task with empty `to_update` — but every fragment the
configuration actually merges has non-empty items, so every `SyncTaskSpec` in
the resolved `TO_UPDATE` has a non-empty `to_update` list. -/
theorem c8_no_empty_tasks (host start_dir excludes : String) (isLinux : Bool) :
    (mergeFragment (base host start_dir excludes)
        { dir1? := none, dir2? := none, exclude_from? := none,
          to_update := [] }).to_update = [] ∧
    ∀ t ∈ TO_UPDATE host start_dir excludes isLinux, t.to_update ≠ [] := by
  refine ⟨rfl, fun t ht => ?_⟩
  have h : ((TO_UPDATE host start_dir excludes isLinux).all fun t =>
      !t.to_update.isEmpty) = true := by
    cases isLinux <;> rfl
  rw [List.all_eq_true] at h
  have h2 := h t ht
  rw [Bool.not_eq_true', List.isEmpty_eq_false_iff_exists_mem] at h2
  obtain ⟨x, hx⟩ := h2
  exact fun hnil => by simp [hnil] at hx

/-- C8, satisfiability: the hypotheses of `c8_no_empty_tasks` hold at the
concrete `library` task. -/
theorem c8_no_empty_tasks_witness :
    library "host" "." "~/.excludes" ∈ TO_UPDATE "host" "." "~/.excludes" true ∧
    (library "host" "." "~/.excludes").to_update ≠ [] := by
  have hmem : library "host" "." "~/.excludes" ∈
      TO_UPDATE "host" "." "~/.excludes" true :=
    List.mem_append_left _ (List.mem_cons_of_mem _ (List.mem_cons_self _ _))
  exact ⟨hmem, (c8_no_empty_tasks "host" "." "~/.excludes" true).2 _ hmem⟩

/-- Appending a non-empty second string fixes the last character: the result
ends in `/` exactly when the second string does. -/
theorem endsSep_append (a b : String) (hb : b.data ≠ []) :
    endsSep (a ++ b) = endsSep b := by
  unfold endsSep
  rw [String.data_append, List.getLast?_append_of_ne_nil a.data hb]

/-- For a non-absolute, non-empty second segment, `pjoin` preserves
trailing-separator presence: the result ends in `/` exactly when the second
segment does. -/
theorem pjoin_trailing (a b : String) (hb1 : ¬ b.data.head? = some '/')
    (hb2 : b.data ≠ []) : endsSep (pjoin a b) = endsSep b := by
  unfold pjoin
  rw [if_neg hb1]
  split
  · exact endsSep_append a b hb2
  · exact endsSep_append (a ++ "/") b hb2

/-- C9: for each of the four joins the configuration performs — `~` or
`server_home` with `.config` or `Library` — the joined result ends with a
separator exactly when the final input segment does (and none of these
segments does): the join neither introduces nor strips a trailing
separator. -/
theorem c9_join_trailing_sep (host start_dir : String) :
    endsSep (pjoin "~" ".config") = endsSep ".config" ∧
    endsSep (pjoin (server_home host start_dir) ".config") =
      endsSep ".config" ∧
    endsSep (pjoin "~" lib_path) = endsSep lib_path ∧
    endsSep (pjoin (server_home host start_dir) lib_path) = endsSep lib_path ∧
    endsSep ".config" = false ∧ endsSep lib_path = false :=
  ⟨pjoin_trailing _ _ (by decide) (by decide),
   pjoin_trailing _ _ (by decide) (by decide),
   pjoin_trailing _ _ (by decide) (by decide),
   pjoin_trailing _ _ (by decide) (by decide),
   by decide, by decide⟩

/-- `server_home` itself starts with `host ++ ":"`. -/
theorem host_colon_le_server_home (h s : String) :
    (h ++ ":").data <+: (server_home h s).data := by
  unfold server_home
  rw [String.data_append]
  exact List.prefix_append _ _

/-- A `pjoin` under `server_home` with a non-absolute second segment keeps the
`host ++ ":"` prefix. -/
theorem host_colon_le_pjoin (h s b : String) (hb : ¬ b.data.head? = some '/') :
    (h ++ ":").data <+: (pjoin (server_home h s) b).data := by
  unfold pjoin
  rw [if_neg hb]
  split
  · simp only [String.data_append, server_home, List.append_assoc]
    rw [← List.append_assoc]
    exact List.prefix_append _ _
  · simp only [String.data_append, server_home, List.append_assoc]
    rw [← List.append_assoc]
    exact List.prefix_append _ _

/-- C10: every task in the resolved `TO_UPDATE` has a `dir2` that begins with
`host ++ ":"` — it is either `server_home` itself (the `base` tasks) or a path
joined under it (`config`, `library`), so one resolution pass addresses a
single remote host and root. -/
theorem c10_dir2_same_host (host start_dir excludes : String)
    (isLinux : Bool) :
    ∀ t ∈ TO_UPDATE host start_dir excludes isLinux,
      (host ++ ":").data <+: t.dir2.data := by
  intro t ht
  simp only [TO_UPDATE, other_homedirs, List.mem_append, List.mem_cons,
    List.not_mem_nil, or_false, List.mem_map] at ht
  rcases ht with (rfl | rfl | rfl) | ⟨d, _, rfl⟩
  · exact host_colon_le_pjoin host start_dir ".config" (by decide)
  · exact host_colon_le_pjoin host start_dir lib_path (by decide)
  · exact host_colon_le_server_home host start_dir
  · exact host_colon_le_server_home host start_dir

/-- C10, satisfiability: the hypothesis of `c10_dir2_same_host` holds at the
concrete `home` task. -/
theorem c10_dir2_same_host_witness :
    home "host" "." "~/.excludes" true ∈
      TO_UPDATE "host" "." "~/.excludes" true ∧
    ("host" ++ ":").data <+: (home "host" "." "~/.excludes" true).dir2.data := by
  have hmem : home "host" "." "~/.excludes" true ∈
      TO_UPDATE "host" "." "~/.excludes" true :=
    List.mem_append_left _
      (List.mem_cons_of_mem _ (List.mem_cons_of_mem _ (List.mem_cons_self _ _)))
  exact ⟨hmem, c10_dir2_same_host "host" "." "~/.excludes" true _ hmem⟩

end Fpsyncrc
